import Mathlib

set_option maxHeartbeats 1600000

/-! # Verification of the notification-statistics script

Shallow embedding of `src/likes.py`, a script that pages through a
notification feed and a followers list, aggregates like / comment /
collection events per actor and per resource, and derives follower-split
and concentration statistics.

Modelling conventions:
* Python dicts and `Counter`s are association lists whose first components
  are the keys; `Counter[k] += 1` is `incr` and
  `defaultdict(Counter)[name][key] += 1` is `incrNested` (a fresh key is
  appended at the end, matching Python dict insertion order).
* The HTTP server is a list of prepared responses, one per request; the
  fetch loops return the list of `(offset, limit)` parameter pairs they
  issued together with their result (`none` means the response list was
  exhausted before a short page ended the loop).
* Floats produced by Python's true division are modelled as exact
  rationals; a Python `ZeroDivisionError` is the error value of `pydiv`.
-/

/-- Page size used by both paginated endpoints (`LIMIT = 500` in the source;
`get_followers` uses its own local `limit = 500` with the same value). -/
def LIMIT : Nat := 500

/-- The `user_profile` object of a notification; only its `name` is read. -/
structure UserProfile where
  name : String
deriving DecidableEq

/-- One notification record, with the fields the script reads: `action`,
`user_profile.name`, `resource_uuid`, `created_at`, and the truthiness of
the optional `resource_media` field (an absent or falsy field is `false`). -/
structure Notification where
  action : String
  user_profile : UserProfile
  resource_uuid : String
  created_at : String
  resource_media : Bool
deriving DecidableEq

/-- Key of a per-actor like entry: `(resource_uuid, created_at)`. -/
abbrev LikeKey := String × String

/-- A Python `Counter` over like keys. -/
abbrev LikeCounter := List (LikeKey × Nat)

/-- `user_likes : defaultdict(Counter)`, keyed by actor name. -/
abbrev UserLikes := List (String × LikeCounter)

/-- A Python `Counter` keyed by strings. -/
abbrev NatCounter := List (String × Nat)

/-- `counter[k] += 1`: bump the first entry with key `k`, or append `(k, 1)`. -/
def incr {α : Type} [DecidableEq α] : List (α × Nat) → α → List (α × Nat)
  | [], k => [(k, 1)]
  | (a, n) :: rest, k =>
      if a = k then (a, n + 1) :: rest else (a, n) :: incr rest k

/-- `user_likes[name][k] += 1` on a `defaultdict(Counter)`. -/
def incrNested : UserLikes → String → LikeKey → UserLikes
  | [], name, k => [(name, incr [] k)]
  | (a, c) :: rest, name, k =>
      if a = name then (a, incr c k) :: rest else (a, c) :: incrNested rest name k

/-- `process_liked_notification` from the source. -/
def process_liked_notification (n : Notification) (user_likes : UserLikes) : UserLikes :=
  incrNested user_likes n.user_profile.name (n.resource_uuid, n.created_at)

/-- `process_commented_notification` from the source: bumps the per-actor and
per-resource comment counters. -/
def process_commented_notification (n : Notification)
    (user_comments resource_comments : NatCounter) : NatCounter × NatCounter :=
  (incr user_comments n.user_profile.name, incr resource_comments n.resource_uuid)

/-- `process_collected_notification` from the source. -/
def process_collected_notification (n : Notification)
    (resource_collected : NatCounter) : NatCounter :=
  incr resource_collected n.resource_uuid

/-- `user_is_follower[k] = True` on a `defaultdict(bool)`. -/
def setTrue : List (String × Bool) → String → List (String × Bool)
  | [], k => [(k, true)]
  | (a, b) :: rest, k =>
      if a = k then (a, true) :: rest else (a, b) :: setTrue rest k

/-- The mutable state of `load_data`: the five aggregates, the
`user_is_follower` map and the accumulated raw `notifications` list. -/
structure LoadState where
  user_likes : UserLikes
  user_comments : NatCounter
  resource_comments : NatCounter
  resource_collected : NatCounter
  follower_like_counts : NatCounter
  user_is_follower : List (String × Bool)
  notifications : List Notification
deriving DecidableEq

/-- The aggregates at the top of `load_data`, before the fetch loop: all
empty, except that `user_is_follower[f] = True` for each given follower. -/
def initState (followers : List String) : LoadState :=
  { user_likes := [], user_comments := [], resource_comments := [],
    resource_collected := [], follower_like_counts := [],
    user_is_follower := followers.foldl setTrue [], notifications := [] }

/-- Filter for `liked_notifications`: `action == "liked"` and the
`resource_media` field truthy. -/
def likedPred (n : Notification) : Bool :=
  n.action == "liked" && n.resource_media

/-- Filter for `commented_notifications`. -/
def commentedPred (n : Notification) : Bool :=
  n.action == "commented"

/-- Filter for `collected_notifications`. -/
def collectedPred (n : Notification) : Bool :=
  n.action == "collected"

/-- The loop over `liked_notifications`: each record updates `user_likes`
via `process_liked_notification` and bumps `follower_like_counts[name]`. -/
def foldLiked (acc : UserLikes × NatCounter) (l : List Notification) :
    UserLikes × NatCounter :=
  l.foldl (fun acc n =>
    (process_liked_notification n acc.1, incr acc.2 n.user_profile.name)) acc

/-- The loop over `commented_notifications`. -/
def foldCommented (acc : NatCounter × NatCounter) (l : List Notification) :
    NatCounter × NatCounter :=
  l.foldl (fun acc n => process_commented_notification n acc.1 acc.2) acc

/-- The loop over `collected_notifications`. -/
def foldCollected (acc : NatCounter) (l : List Notification) : NatCounter :=
  l.foldl (fun acc n => process_collected_notification n acc) acc

/-- One iteration of the `while True` body of `load_data` on one response
page: extend `notifications`, filter the page three ways, and run the three
per-action loops.  The three loops touch pairwise disjoint fields, so they
are rendered as independent folds over the filtered sublists. -/
def processPage (s : LoadState) (page : List Notification) : LoadState :=
  let lk := foldLiked (s.user_likes, s.follower_like_counts) (page.filter likedPred)
  let cm := foldCommented (s.user_comments, s.resource_comments) (page.filter commentedPred)
  let cl := foldCollected s.resource_collected (page.filter collectedPred)
  { user_likes := lk.1, user_comments := cm.1, resource_comments := cm.2,
    resource_collected := cl, follower_like_counts := lk.2,
    user_is_follower := s.user_is_follower,
    notifications := s.notifications ++ page }

/-- Ingest a sequence of pages into a state (iterated loop body). -/
def processPages (s : LoadState) (pages : List (List Notification)) : LoadState :=
  pages.foldl processPage s

/-- A JSON payload answering one notifications request; `notifications` is
`none` when the payload has no `notifications` key. -/
structure Payload where
  notifications : Option (List Notification)
deriving DecidableEq

/-- `data.get("notifications", [])`: a payload without the key yields `[]`. -/
def pageOf (p : Payload) : List Notification := p.notifications.getD []

/-- The `while True` fetch loop of `load_data` over the server's prepared
responses, logging each issued `(offset, limit)` request.  The loop breaks
right after processing a page of fewer than `LIMIT` records; `none` means
the response list ran out with every page still full. -/
def load_data_go : List Payload → Nat → LoadState →
    Option (List (Nat × Nat) × LoadState)
  | [], _, _ => none
  | p :: rest, offset, s =>
      let page := pageOf p
      let s' := processPage s page
      if page.length < LIMIT then some ([(offset, LIMIT)], s')
      else
        match load_data_go rest (offset + LIMIT) s' with
        | none => none
        | some (rs, sf) => some ((offset, LIMIT) :: rs, sf)

/-- `load_data` from the source: fresh aggregates, then the paginated fetch
starting at `offset = 0`. -/
def load_data (followers : List String) (responses : List Payload) :
    Option (List (Nat × Nat) × LoadState) :=
  load_data_go responses 0 (initState followers)

/-- The `profile` object of a follower record; only its `name` is read. -/
structure FollowerProfile where
  name : String
deriving DecidableEq

/-- One element of the `users` array of a followers-endpoint payload. -/
structure FollowerUser where
  profile : FollowerProfile
deriving DecidableEq

/-- The `while True` loop of `get_followers`: extend the accumulator with
each user's `profile.name` projection, break on a page of fewer than
`LIMIT` records.  The fixed `width=600` and `include_nsfw=True` parameters
are literals held constant by the source, so only `(offset, limit)` is
logged per request. -/
def get_followers_go : List (List FollowerUser) → Nat → List String →
    Option (List (Nat × Nat) × List String)
  | [], _, _ => none
  | pg :: rest, offset, acc =>
      let acc' := acc ++ pg.map (fun u => u.profile.name)
      if pg.length < LIMIT then some ([(offset, LIMIT)], acc')
      else
        match get_followers_go rest (offset + LIMIT) acc' with
        | none => none
        | some (rs, res) => some ((offset, LIMIT) :: rs, res)

/-- `get_followers` from the source, starting at `offset = 0`. -/
def get_followers (responses : List (List FollowerUser)) :
    Option (List (Nat × Nat) × List String) :=
  get_followers_go responses 0 []

/-- `dict.get(a, d)` on an association list: the value of the first entry
with key `a`, or the default `d`. -/
def lookupD {α β : Type} [BEq α] (l : List (α × β)) (a : α) (d : β) : β :=
  ((l.find? (fun e => e.1 == a)).map (fun e => e.2)).getD d

/-- `sum(counter.values())`: total stored count of a like counter. -/
def sumCounts (c : LikeCounter) : Nat :=
  (c.map (fun e => e.2)).sum

/-- The linkage between the two like aggregates maintained by the liked
loop (lines 204–207 of the source): same actor keys, and the per-actor
event counter equals the total of the actor's per-tuple stored counts. -/
def LikeInv (ul : UserLikes) (flc : NatCounter) : Prop :=
  flc.map (fun e => e.1) = ul.map (fun e => e.1)
  ∧ ∀ a, lookupD flc a 0 = sumCounts (lookupD ul a [])

/-- A sample notification used to build concrete pages: a counted like. -/
def n0 : Notification :=
  { action := "liked", user_profile := { name := "A" },
    resource_uuid := "r", created_at := "t", resource_media := true }

/-- A sample notification whose action is none of the three handled ones. -/
def nOther : Notification :=
  { action := "followed", user_profile := { name := "B" },
    resource_uuid := "r2", created_at := "t2", resource_media := true }

/-- A sample `liked` notification lacking the media flag. -/
def nNoMedia : Notification :=
  { action := "liked", user_profile := { name := "C" },
    resource_uuid := "r3", created_at := "t3", resource_media := false }

/-- A sample follower record. -/
def fu0 : FollowerUser := { profile := { name := "F" } }

/-- Python exceptions raised by the statistics layer: `ZeroDivisionError`
from scalar division, and the error `numpy` raises when asked for a
percentile of an empty array. -/
inductive PyError where
  | zeroDivision
  | indexError
deriving DecidableEq

/-- Python true division `a / b`: raises `ZeroDivisionError` when `b = 0`. -/
def pydiv (a b : ℚ) : Except PyError ℚ :=
  if b = 0 then Except.error PyError.zeroDivision else Except.ok (a / b)

/-- Python `int(q)`: truncation toward zero. -/
def pyInt (q : ℚ) : Int :=
  if 0 ≤ q then ⌊q⌋ else ⌈q⌉

/-- `DataFrame.head(n)`: the first `n` rows for `n ≥ 0`, and all but the
last `|n|` rows for negative `n`. -/
def pdHead {α : Type} (l : List α) (n : Int) : List α :=
  if 0 ≤ n then l.take n.toNat else l.take (l.length - n.natAbs)

/-- The base URL prefixed to resource ids in the rendered dataframes. -/
def postURL : String := "https://yodayo.com/posts/"

/-- The `liked_data` comprehension of `generate_likes_dataframe`: one row
`(actor, resource_uuid, created_at, count)` per stored like entry. -/
def liked_data (user_likes : UserLikes) : List (String × String × String × Nat) :=
  user_likes.flatMap (fun e => e.2.map (fun p => (e.1, p.1.1, p.1.2, p.2)))

/-- Row list of the dataframe built by `generate_likes_dataframe`.
`explode("count")` is a no-op on the scalar `count` column, and the
`sort_values(by="created_at")` step permutes rows by timestamp; every
quantity read from this frame downstream (row counts, per-actor groupings)
is invariant under row order, so the sort is omitted.  The resource column
is prefixed with the post URL as in the source. -/
def generate_likes_dataframe (user_likes : UserLikes) :
    List (String × String × String × Nat) :=
  (liked_data user_likes).map (fun r => (r.1, postURL ++ r.2.1, r.2.2.1, r.2.2.2))

/-- `follower_names = set(followers)`; only membership, size and difference
are read from it, so it is the deduplicated list. -/
def follower_names (followers : List String) : List String := followers.dedup

/-- `users_with_likes`: the distinct actors of the likes dataframe. -/
def users_with_likes (user_likes : UserLikes) : List String :=
  ((generate_likes_dataframe user_likes).map (fun r => r.1)).dedup

/-- `likes_by_followers`: the number of rows of the likes dataframe whose
actor is in the follower set (exact, case-sensitive string match). -/
def likes_by_followers (user_likes : UserLikes) (followers : List String) : Nat :=
  ((generate_likes_dataframe user_likes).filter
    (fun r => (follower_names followers).contains r.1)).length

/-- `likes_by_non_followers`: the complementary row count. -/
def likes_by_non_followers (user_likes : UserLikes) (followers : List String) : Nat :=
  ((generate_likes_dataframe user_likes).filter
    (fun r => !((follower_names followers).contains r.1))).length

/-- What the specification says the split counts: like events including
repeats of a `(actor, resource_id, created_at)` triple, i.e. the total of
the stored counts of the actors inside the follower set. -/
def like_events_by_followers (user_likes : UserLikes) (followers : List String) : Nat :=
  ((user_likes.filter (fun e => (follower_names followers).contains e.1)).map
    (fun e => sumCounts e.2)).sum

/-- `Series.value_counts()`: occurrence count per distinct value.  pandas
orders the result by descending count; it only feeds a `groupby` whose
buckets the claims read by membership, so first-occurrence order is used. -/
def value_counts (l : List String) : List (String × Nat) :=
  l.dedup.map (fun a => (a, (l.filter (fun b => b == a)).length))

/-- `groupby("likes").count()` plus the percentage column: one bucket per
distinct like-value, carrying the bucket's row count and
`count / denom * 100`.  pandas sorts buckets by key; the claims read
buckets by membership, so first-occurrence order is used. -/
def groupByLikes (rows : List (String × Nat)) (denom : ℚ) : List (Nat × Nat × ℚ) :=
  ((rows.map (fun e => e.2)).dedup).map (fun v =>
    let c := (rows.filter (fun e => e.2 == v)).length
    (v, c, (c : ℚ) / denom * 100))

/-- The likes-dataframe rows attributed to non-followers. -/
def non_follower_rows (user_likes : UserLikes) (followers : List String) :
    List (String × String × String × Nat) :=
  (generate_likes_dataframe user_likes).filter
    (fun r => !((follower_names followers).contains r.1))

/-- `non_follower_like_counts_df`: value counts of the non-follower rows'
actor column. -/
def non_follower_like_counts (user_likes : UserLikes) (followers : List String) :
    List (String × Nat) :=
  value_counts ((non_follower_rows user_likes followers).map (fun r => r.1))

/-- `follower_like_counts_df`: the entries of `follower_like_counts`
restricted to the follower set, then to strictly positive counts. -/
def follower_like_counts_df (followers : List String) (flc : NatCounter) :
    List (String × Nat) :=
  (flc.filter (fun e => (follower_names followers).contains e.1)).filter
    (fun e => decide (0 < e.2))

/-- The non-follower histogram of `analyze_likes`, whose percentage
denominator is `len(users_with_likes) - total_followers` in the source. -/
def non_follower_likes_summary (user_likes : UserLikes) (followers : List String) :
    List (Nat × Nat × ℚ) :=
  groupByLikes (non_follower_like_counts user_likes followers)
    (((users_with_likes user_likes).length : ℚ)
      - ((follower_names followers).length : ℚ))

/-- The follower histogram of `analyze_likes`, with denominator
`total_followers`. -/
def follower_likes_summary (followers : List String) (flc : NatCounter) :
    List (Nat × Nat × ℚ) :=
  groupByLikes (follower_like_counts_df followers flc)
    ((follower_names followers).length : ℚ)

/-- The outputs of `analyze_likes`, in source order. -/
structure AnalyzeReport where
  followers_no_likes : List String
  pct_followers_no_likes : ℚ
  likes_by_followers : Nat
  likes_by_non_followers : Nat
  pct_likes_by_followers : ℚ
  pct_likes_by_non_followers : ℚ
  follower_summary : List (Nat × Nat × ℚ)
  non_follower_summary : List (Nat × Nat × ℚ)
deriving DecidableEq

/-- `analyze_likes` from the source.  The percentage of followers with no
likes is computed first (`count / total_followers * 100`), then the
follower / non-follower split of the dataframe rows with their shares of
`total_likes`, then the two histograms.  Scalar Python divisions go
through `pydiv`, so the run aborts with `ZeroDivisionError` exactly where
the script raises. -/
def analyze_likes (user_likes : UserLikes) (followers : List String)
    (flc : NatCounter) : Except PyError AnalyzeReport := do
  let fnames := follower_names followers
  let uwl := users_with_likes user_likes
  let followers_no_likes := fnames.filter (fun f => !(uwl.contains f))
  let total_followers := fnames.length
  let q0 ← pydiv (followers_no_likes.length : ℚ) (total_followers : ℚ)
  let lbf := likes_by_followers user_likes followers
  let lbn := likes_by_non_followers user_likes followers
  let total_likes := lbf + lbn
  let qf ← pydiv (lbf : ℚ) (total_likes : ℚ)
  let qn ← pydiv (lbn : ℚ) (total_likes : ℚ)
  return { followers_no_likes := followers_no_likes,
           pct_followers_no_likes := q0 * 100,
           likes_by_followers := lbf,
           likes_by_non_followers := lbn,
           pct_likes_by_followers := qf * 100,
           pct_likes_by_non_followers := qn * 100,
           follower_summary := follower_likes_summary followers flc,
           non_follower_summary := non_follower_likes_summary user_likes followers }

/-- The fixed percentile cut points of the script. -/
def percentiles : List ℚ := [10, 20, 30, 40, 50, 60, 70, 80, 90, 100]

/-- One linearly interpolated percentile of an ascending-sorted list
(`numpy`'s default method: position `p / 100 * (n - 1)`). -/
def percentile_interp (sorted : List ℚ) (p : ℚ) : ℚ :=
  let pos := p / 100 * ((sorted.length : ℚ) - 1)
  let vl := sorted.getD (⌊pos⌋).toNat 0
  let vh := sorted.getD (⌈pos⌉).toNat 0
  vl + (vh - vl) * (pos - (⌊pos⌋ : ℚ))

/-- `np.percentile(values, ps)`: raises on an empty array, otherwise
linearly interpolates each cut point over the ascending sort. -/
def np_percentile (values : List ℚ) (ps : List ℚ) : Except PyError (List ℚ) :=
  if values.isEmpty then Except.error PyError.indexError
  else Except.ok (ps.map (percentile_interp (values.insertionSort (fun a b => a ≤ b))))

/-- `display_top_users_stats` from the source: sort the per-user totals
descending (`sort_values(ascending=False)`), keep the `head` of
`int(percentile * len(likes_df))` rows, and report the slice size, the
slice size as a percentage of the user count, and the slice sum as a
percentage of `total_likes`. -/
def display_top_users_stats (likes : List ℚ) (percentile : ℚ) (total_likes : ℚ) :
    Except PyError (Nat × ℚ × ℚ) := do
  let top_users := pdHead (likes.insertionSort (fun a b => b ≤ a))
    (pyInt (percentile * (likes.length : ℚ)))
  let q1 ← pydiv (top_users.length : ℚ) (likes.length : ℚ)
  let q2 ← pydiv top_users.sum total_likes
  return (top_users.length, q1 * 100, q2 * 100)

/-- The top-fraction statistic as the specification words it: sort the
totals descending, select exactly the leading `int(fraction * n)` elements
(truncation toward zero), and report the slice size, the slice size as a
percentage of `n`, and the slice sum as a percentage of `total`. -/
def top_fraction_share (values : List ℚ) (fraction total : ℚ) : Nat × ℚ × ℚ :=
  let sorted := values.insertionSort (fun a b => b ≤ a)
  let slice := sorted.take (pyInt (fraction * (values.length : ℚ))).toNat
  (slice.length, (slice.length : ℚ) / (values.length : ℚ) * 100,
    slice.sum / total * 100)

/-- The statistics section of `main` (lines 357–380 of the source): the
likes percentile array is computed first, then the comments percentile
array, then the four top-fraction reports at fractions 0.05, 0.10, 0.25,
0.50, and only then are the percentile values written out; an exception at
any step aborts everything after it. -/
def main_statistics (likes comments : List ℚ) (total_likes : ℚ) :
    Except PyError (List ℚ × List ℚ × List (Nat × ℚ × ℚ)) := do
  let pl ← np_percentile likes percentiles
  let pc ← np_percentile comments percentiles
  let t05 ← display_top_users_stats likes (5 / 100) total_likes
  let t10 ← display_top_users_stats likes (10 / 100) total_likes
  let t25 ← display_top_users_stats likes (25 / 100) total_likes
  let t50 ← display_top_users_stats likes (50 / 100) total_likes
  return (pl, pc, [t05, t10, t25, t50])

/-- A like aggregate holding one duplicated like: actor `A` liked the same
`(resource, created_at)` pair twice, stored as a single entry of count 2. -/
def dupUL : UserLikes := [("A", [(("r", "t"), 2)])]

/-- Like aggregate for the histogram example: `A` and `E` are non-follower
actors with one like entry each, `B` is a follower with one entry. -/
def exUL : UserLikes :=
  [("A", [(("r", "t"), 1)]), ("B", [(("r", "t2"), 1)]), ("E", [(("r", "t3"), 1)])]

/-- Followers for the histogram example: `B` has likes, `C` has none. -/
def exFollowers : List String := ["B", "C"]

/-- Event counter consistent with `exUL`. -/
def exFLC : NatCounter := [("A", 1), ("B", 1), ("E", 1)]

theorem processPage_notifications (s : LoadState) (page : List Notification) :
    (processPage s page).notifications = s.notifications ++ page := rfl

theorem processPages_notifications :
    ∀ (pages : List (List Notification)) (s : LoadState),
      (processPages s pages).notifications = s.notifications ++ pages.flatten
  | [], s => by simp [processPages]
  | pg :: pages, s => by
      have ih := processPages_notifications pages (processPage s pg)
      simp only [processPages, List.foldl_cons] at ih ⊢
      rw [ih, processPage_notifications, List.flatten_cons, List.append_assoc]

theorem range_map_shift (offset n : Nat) :
    (List.range (n + 1)).map (fun i => (offset + i * LIMIT, LIMIT)) =
      (offset, LIMIT) :: (List.range n).map (fun i => (offset + LIMIT + i * LIMIT, LIMIT)) := by
  rw [List.range_succ_eq_map]
  simp only [List.map_cons, Nat.zero_mul, Nat.add_zero, List.map_map]
  refine congrArg _ (List.map_congr_left fun i _ => ?_)
  simp only [Function.comp_apply]
  congr 1
  rw [Nat.succ_mul]
  ring

/-- Closed form of the notifications fetch loop: after a prefix of full
pages followed by a short page, it has issued one request per consumed page
at offsets `offset, offset + LIMIT, …` and processed exactly the consumed
pages, ignoring any later prepared responses. -/
theorem load_data_go_spec (full : List Payload)
    (hfull : ∀ p ∈ full, (pageOf p).length = LIMIT)
    (short : Payload) (hshort : (pageOf short).length < LIMIT) :
    ∀ (rest : List Payload) (offset : Nat) (s : LoadState),
      load_data_go (full ++ short :: rest) offset s =
        some ((List.range (full.length + 1)).map (fun i => (offset + i * LIMIT, LIMIT)),
          processPages s (full.map pageOf ++ [pageOf short])) := by
  induction full with
  | nil =>
      intro rest offset s
      have h1 : List.range 1 = [0] := rfl
      simp [load_data_go, hshort, processPages, h1]
  | cons p full ih =>
      intro rest offset s
      have hp : (pageOf p).length = LIMIT := hfull p (by simp)
      have hnotlt : ¬ (pageOf p).length < LIMIT := by omega
      rw [List.cons_append]
      simp only [load_data_go]
      rw [if_neg hnotlt,
        ih (fun q hq => hfull q (List.mem_cons_of_mem _ hq)) rest (offset + LIMIT)
          (processPage s (pageOf p))]
      simp only [List.length_cons, List.map_cons, List.cons_append, processPages,
        List.foldl_cons]
      rw [range_map_shift offset (full.length + 1)]

/-- Closed form of the followers fetch loop, analogous to
`load_data_go_spec`. -/
theorem get_followers_go_spec (full : List (List FollowerUser))
    (hfull : ∀ pg ∈ full, pg.length = LIMIT)
    (short : List FollowerUser) (hshort : short.length < LIMIT) :
    ∀ (rest : List (List FollowerUser)) (offset : Nat) (acc : List String),
      get_followers_go (full ++ short :: rest) offset acc =
        some ((List.range (full.length + 1)).map (fun i => (offset + i * LIMIT, LIMIT)),
          acc ++ (full.map (fun pg => pg.map (fun u => u.profile.name))).flatten
            ++ short.map (fun u => u.profile.name)) := by
  induction full with
  | nil =>
      intro rest offset acc
      have h1 : List.range 1 = [0] := rfl
      simp [get_followers_go, hshort, h1]
  | cons pg full ih =>
      intro rest offset acc
      have hp : pg.length = LIMIT := hfull pg (by simp)
      have hnotlt : ¬ pg.length < LIMIT := by omega
      rw [List.cons_append]
      simp only [get_followers_go]
      rw [if_neg hnotlt,
        ih (fun q hq => hfull q (List.mem_cons_of_mem _ hq)) rest (offset + LIMIT)
          (acc ++ pg.map (fun u => u.profile.name))]
      simp only [List.length_cons, List.map_cons, List.flatten_cons]
      rw [range_map_shift offset (full.length + 1)]
      simp [List.append_assoc]

/-- Claim C1: both paginated fetches (`load_data` over the notifications
endpoint and `get_followers` over the followers endpoint) issue requests
whose `offset` starts at 0 and grows by the page size `LIMIT = 500` after
each full page, with the `limit` parameter held fixed; the loop terminates
exactly at the first response page with strictly fewer than `LIMIT`
records, returning all consumed records concatenated in page order (so
pages of sizes 500, 500, 137 cause exactly 3 requests and 1137 records,
and a short first page causes exactly one request). -/
theorem pagination_offsets_and_termination :
    (∀ (followers : List String) (full : List Payload) (short : Payload)
        (rest : List Payload),
      (∀ p ∈ full, (pageOf p).length = LIMIT) → (pageOf short).length < LIMIT →
      ∃ s, load_data followers (full ++ short :: rest) =
          some ((List.range (full.length + 1)).map (fun i => (i * LIMIT, LIMIT)), s)
        ∧ s.notifications = (full.map pageOf).flatten ++ pageOf short)
  ∧ (∀ (full : List (List FollowerUser)) (short : List FollowerUser)
        (rest : List (List FollowerUser)),
      (∀ pg ∈ full, pg.length = LIMIT) → short.length < LIMIT →
      get_followers (full ++ short :: rest) =
        some ((List.range (full.length + 1)).map (fun i => (i * LIMIT, LIMIT)),
          (full.map (fun pg => pg.map (fun u => u.profile.name))).flatten
            ++ short.map (fun u => u.profile.name))) := by
  constructor
  · intro followers full short rest hfull hshort
    refine ⟨processPages (initState followers) (full.map pageOf ++ [pageOf short]), ?_, ?_⟩
    · rw [load_data, load_data_go_spec full hfull short hshort rest 0 (initState followers)]
      simp
    · rw [processPages_notifications]
      simp [initState]
  · intro full short rest hfull hshort
    rw [get_followers, get_followers_go_spec full hfull short hshort rest 0 []]
    simp

theorem pagination_offsets_and_termination_witness :
    (∃ s, load_data []
        [⟨some (List.replicate 500 n0)⟩, ⟨some (List.replicate 500 n0)⟩,
          ⟨some (List.replicate 137 n0)⟩] =
        some ([(0, 500), (500, 500), (1000, 500)], s)
      ∧ s.notifications.length = 1137)
  ∧ get_followers
      [List.replicate 500 fu0, List.replicate 500 fu0, List.replicate 137 fu0] =
      some ([(0, 500), (500, 500), (1000, 500)], List.replicate 1137 "F")
  ∧ (∃ s, load_data [] [⟨some (List.replicate 137 n0)⟩] =
        some ([(0, 500)], s) ∧ s.notifications.length = 137) := by
  have hfullpage : (pageOf ⟨some (List.replicate 500 n0)⟩).length = LIMIT := by
    show (List.replicate 500 n0).length = LIMIT
    rw [List.length_replicate]
    rfl
  have hshortpage : (pageOf ⟨some (List.replicate 137 n0)⟩).length < LIMIT := by
    show (List.replicate 137 n0).length < LIMIT
    rw [List.length_replicate]
    decide
  refine ⟨?_, ?_, ?_⟩
  · obtain ⟨s, hs, hn⟩ := pagination_offsets_and_termination.1 []
      [⟨some (List.replicate 500 n0)⟩, ⟨some (List.replicate 500 n0)⟩]
      ⟨some (List.replicate 137 n0)⟩ []
      (List.forall_mem_cons.2 ⟨hfullpage,
        List.forall_mem_cons.2 ⟨hfullpage, by simp⟩⟩)
      hshortpage
    refine ⟨s, Eq.trans hs (congrArg some (congrArg₂ Prod.mk (by decide) rfl)), ?_⟩
    rw [hn]
    show ((List.replicate 500 n0 ++ (List.replicate 500 n0 ++ [])) ++
      List.replicate 137 n0).length = 1137
    simp only [List.append_nil, List.length_append, List.length_replicate]
  · have h := pagination_offsets_and_termination.2
      [List.replicate 500 fu0, List.replicate 500 fu0] (List.replicate 137 fu0) []
      (List.forall_mem_cons.2 ⟨by rw [List.length_replicate]; rfl,
        List.forall_mem_cons.2 ⟨by rw [List.length_replicate]; rfl, by simp⟩⟩)
      (by rw [List.length_replicate]; decide)
    refine Eq.trans h ?_
    refine congrArg some (congrArg₂ Prod.mk (by decide) ?_)
    simp only [List.map_cons, List.map_nil, List.map_replicate, List.flatten_cons,
      List.flatten_nil, List.append_nil]
    rw [← List.replicate_add, ← List.replicate_add]
    rfl
  · obtain ⟨s, hs, hn⟩ := pagination_offsets_and_termination.1 [] []
      ⟨some (List.replicate 137 n0)⟩ [] (by simp) hshortpage
    refine ⟨s, Eq.trans hs (congrArg some (congrArg₂ Prod.mk (by decide) rfl)), ?_⟩
    rw [hn]
    show (([] : List (List Notification)).flatten ++ List.replicate 137 n0).length = 137
    simp only [List.flatten_nil, List.nil_append, List.length_replicate]

theorem likedPred_false {n : Notification}
    (h : (n.action ≠ "liked" ∧ n.action ≠ "commented" ∧ n.action ≠ "collected")
      ∨ (n.action = "liked" ∧ n.resource_media = false)) :
    likedPred n = false := by
  rcases h with ⟨h1, _, _⟩ | ⟨_, h2⟩
  · simp [likedPred, h1]
  · simp [likedPred, h2]

theorem commentedPred_false {n : Notification}
    (h : (n.action ≠ "liked" ∧ n.action ≠ "commented" ∧ n.action ≠ "collected")
      ∨ (n.action = "liked" ∧ n.resource_media = false)) :
    commentedPred n = false := by
  rcases h with ⟨_, h2, _⟩ | ⟨h1, _⟩
  · simp [commentedPred, h2]
  · simp [commentedPred, h1]

theorem collectedPred_false {n : Notification}
    (h : (n.action ≠ "liked" ∧ n.action ≠ "commented" ∧ n.action ≠ "collected")
      ∨ (n.action = "liked" ∧ n.resource_media = false)) :
    collectedPred n = false := by
  rcases h with ⟨_, _, h3⟩ | ⟨h1, _⟩
  · simp [collectedPred, h3]
  · simp [collectedPred, h1]

/-- Claim C2: a record whose action is none of `liked`, `commented`,
`collected`, or whose action is `liked` but whose `resource_media` flag is
absent or falsy, changes no aggregate: inserting it anywhere in a page
leaves `user_likes`, `follower_like_counts`, `user_comments`,
`resource_comments` and `resource_collected` exactly as they would be
without it. -/
theorem irrelevant_record_changes_no_aggregate
    (s : LoadState) (p1 p2 : List Notification) (n : Notification)
    (h : (n.action ≠ "liked" ∧ n.action ≠ "commented" ∧ n.action ≠ "collected")
      ∨ (n.action = "liked" ∧ n.resource_media = false)) :
    (processPage s (p1 ++ n :: p2)).user_likes = (processPage s (p1 ++ p2)).user_likes
    ∧ (processPage s (p1 ++ n :: p2)).follower_like_counts
        = (processPage s (p1 ++ p2)).follower_like_counts
    ∧ (processPage s (p1 ++ n :: p2)).user_comments
        = (processPage s (p1 ++ p2)).user_comments
    ∧ (processPage s (p1 ++ n :: p2)).resource_comments
        = (processPage s (p1 ++ p2)).resource_comments
    ∧ (processPage s (p1 ++ n :: p2)).resource_collected
        = (processPage s (p1 ++ p2)).resource_collected := by
  have hl := likedPred_false h
  have hc := commentedPred_false h
  have hco := collectedPred_false h
  simp [processPage, List.filter_append, List.filter_cons, hl, hc, hco]

theorem irrelevant_record_changes_no_aggregate_witness :
    ((processPage (initState []) [nOther, n0]).user_likes
        = (processPage (initState []) [n0]).user_likes
      ∧ (processPage (initState []) [nOther, n0]).follower_like_counts
          = (processPage (initState []) [n0]).follower_like_counts
      ∧ (processPage (initState []) [nOther, n0]).user_comments
          = (processPage (initState []) [n0]).user_comments
      ∧ (processPage (initState []) [nOther, n0]).resource_comments
          = (processPage (initState []) [n0]).resource_comments
      ∧ (processPage (initState []) [nOther, n0]).resource_collected
          = (processPage (initState []) [n0]).resource_collected)
    ∧ ((processPage (initState []) [nNoMedia]).user_likes
        = (processPage (initState []) []).user_likes
      ∧ (processPage (initState []) [nNoMedia]).follower_like_counts
          = (processPage (initState []) []).follower_like_counts
      ∧ (processPage (initState []) [nNoMedia]).user_comments
          = (processPage (initState []) []).user_comments
      ∧ (processPage (initState []) [nNoMedia]).resource_comments
          = (processPage (initState []) []).resource_comments
      ∧ (processPage (initState []) [nNoMedia]).resource_collected
          = (processPage (initState []) []).resource_collected) :=
  ⟨irrelevant_record_changes_no_aggregate (initState []) [] [n0] nOther
      (Or.inl ⟨by decide, by decide, by decide⟩),
    irrelevant_record_changes_no_aggregate (initState []) [] [] nNoMedia
      (Or.inr ⟨by decide, by decide⟩)⟩

/-- Claim C3: two `liked` notifications carrying the media flag and sharing
the same `(actor, resource_id, created_at)` triple, ingested together into
fresh aggregates, produce a like aggregate in which that actor has exactly
one entry, keyed by that `(resource_id, created_at)` pair, with stored
count 2 (the two records are interchangeable, so this covers both
insertion orders). -/
theorem duplicate_like_collapses_with_count_two
    (followers : List String) (a r t : String) (n1 n2 : Notification)
    (h1a : n1.action = "liked") (h1m : n1.resource_media = true)
    (h1n : n1.user_profile.name = a) (h1r : n1.resource_uuid = r)
    (h1t : n1.created_at = t)
    (h2a : n2.action = "liked") (h2m : n2.resource_media = true)
    (h2n : n2.user_profile.name = a) (h2r : n2.resource_uuid = r)
    (h2t : n2.created_at = t) :
    (processPage (initState followers) [n1, n2]).user_likes = [(a, [((r, t), 2)])]
    ∧ (lookupD (processPage (initState followers) [n1, n2]).user_likes a []).length = 1 := by
  obtain ⟨ac1, ⟨nm1⟩, ru1, ca1, rm1⟩ := n1
  obtain ⟨ac2, ⟨nm2⟩, ru2, ca2, rm2⟩ := n2
  simp only at h1a h1m h1n h1r h1t h2a h2m h2n h2r h2t
  subst h1a h1m h1n h1r h1t h2a h2m h2n h2r h2t
  constructor
  · simp [processPage, initState, likedPred, commentedPred, collectedPred,
      foldLiked, process_liked_notification, incrNested, incr]
  · simp [processPage, initState, likedPred, commentedPred, collectedPred,
      foldLiked, process_liked_notification, incrNested, incr, lookupD]

theorem duplicate_like_collapses_with_count_two_witness :
    (processPage (initState []) [n0, n0]).user_likes = [("A", [(("r", "t"), 2)])]
    ∧ (lookupD (processPage (initState []) [n0, n0]).user_likes "A" []).length = 1 :=
  duplicate_like_collapses_with_count_two [] "A" "r" "t" n0 n0
    rfl rfl rfl rfl rfl rfl rfl rfl rfl rfl

theorem lookupD_cons {α β : Type} [BEq α] (b : α) (m : β) (rest : List (α × β))
    (a : α) (d : β) :
    lookupD ((b, m) :: rest) a d = if (b == a) = true then m else lookupD rest a d := by
  by_cases h : (b == a) = true
  · simp [lookupD, List.find?_cons_of_pos, h]
  · rw [if_neg h]
    simp only [Bool.not_eq_true] at h
    simp [lookupD, List.find?_cons_of_neg, h]

theorem keys_incr {α : Type} [DecidableEq α] (l : List (α × Nat)) (k : α) :
    (incr l k).map (fun e => e.1) =
      if k ∈ l.map (fun e => e.1) then l.map (fun e => e.1)
      else l.map (fun e => e.1) ++ [k] := by
  induction l with
  | nil => simp [incr]
  | cons e rest ih =>
      obtain ⟨b, m⟩ := e
      by_cases hbk : b = k
      · subst hbk
        simp [incr]
      · have hkb : ¬ (k = b) := fun hk => hbk hk.symm
        simp only [incr, if_neg hbk, List.map_cons, ih, List.mem_cons, hkb, false_or]
        by_cases hk : k ∈ rest.map (fun e => e.1)
        · simp [hk]
        · simp [hk]

theorem keys_incrNested (ul : UserLikes) (nm : String) (k : LikeKey) :
    (incrNested ul nm k).map (fun e => e.1) =
      if nm ∈ ul.map (fun e => e.1) then ul.map (fun e => e.1)
      else ul.map (fun e => e.1) ++ [nm] := by
  induction ul with
  | nil => simp [incrNested]
  | cons e rest ih =>
      obtain ⟨b, c⟩ := e
      by_cases hbn : b = nm
      · subst hbn
        simp [incrNested]
      · have hnb : ¬ (nm = b) := fun hn => hbn hn.symm
        simp only [incrNested, if_neg hbn, List.map_cons, ih, List.mem_cons, hnb, false_or]
        by_cases hn : nm ∈ rest.map (fun e => e.1)
        · simp [hn]
        · simp [hn]

theorem lookupD_incr {α : Type} [DecidableEq α] (l : List (α × Nat)) (k a : α) :
    lookupD (incr l k) a 0 = lookupD l a 0 + (if a = k then 1 else 0) := by
  induction l with
  | nil =>
      by_cases hak : a = k
      · subst hak
        simp [incr, lookupD]
      · have : ¬ (k == a) = true := by simp [beq_iff_eq]; exact fun h => hak h.symm
        simp [incr, lookupD_cons, this, lookupD, hak]
  | cons e rest ih =>
      obtain ⟨b, m⟩ := e
      by_cases hbk : b = k
      · subst hbk
        by_cases hab : a = b
        · subst hab
          simp [incr, lookupD_cons]
        · have : ¬ (b == a) = true := by simp [beq_iff_eq]; exact fun h => hab h.symm
          simp [incr, lookupD_cons, this, hab]
      · by_cases hab : a = b
        · subst hab
          simp [incr, if_neg hbk, lookupD_cons, hbk]
        · have : ¬ (b == a) = true := by simp [beq_iff_eq]; exact fun h => hab h.symm
          simp [incr, if_neg hbk, lookupD_cons, this, ih]

theorem sumCounts_incr (c : LikeCounter) (k : LikeKey) :
    sumCounts (incr c k) = sumCounts c + 1 := by
  induction c with
  | nil => simp [incr, sumCounts]
  | cons e rest ih =>
      obtain ⟨b, m⟩ := e
      by_cases hbk : b = k
      · subst hbk
        simp only [incr, eq_self_iff_true, if_true, sumCounts, List.map_cons,
          List.sum_cons]
        omega
      · simp only [incr, if_neg hbk, sumCounts, List.map_cons, List.sum_cons] at ih ⊢
        omega

theorem lookupD_incrNested (ul : UserLikes) (nm : String) (k : LikeKey) (a : String) :
    lookupD (incrNested ul nm k) a [] =
      if a = nm then incr (lookupD ul a []) k else lookupD ul a [] := by
  induction ul with
  | nil =>
      by_cases han : a = nm
      · subst han
        simp [incrNested, lookupD_cons, lookupD]
      · have : ¬ (nm == a) = true := by simp [beq_iff_eq]; exact fun h => han h.symm
        simp [incrNested, lookupD_cons, this, lookupD, han]
  | cons e rest ih =>
      obtain ⟨b, c⟩ := e
      by_cases hbn : b = nm
      · subst hbn
        by_cases hab : a = b
        · subst hab
          simp [incrNested, lookupD_cons]
        · have : ¬ (b == a) = true := by simp [beq_iff_eq]; exact fun h => hab h.symm
          simp [incrNested, lookupD_cons, this, hab]
      · by_cases hab : a = b
        · subst hab
          have hna : ¬ (a = nm) := fun h => hbn h
          simp [incrNested, if_neg hbn, lookupD_cons, hna]
        · have : ¬ (b == a) = true := by simp [beq_iff_eq]; exact fun h => hab h.symm
          simp [incrNested, if_neg hbn, lookupD_cons, this, ih]

theorem likeInv_step (ul : UserLikes) (flc : NatCounter)
    (h : LikeInv ul flc) (n : Notification) :
    LikeInv (process_liked_notification n ul) (incr flc n.user_profile.name) := by
  obtain ⟨hk, hv⟩ := h
  constructor
  · rw [keys_incr, process_liked_notification, keys_incrNested, hk]
  · intro a
    rw [lookupD_incr, hv a, process_liked_notification, lookupD_incrNested]
    by_cases han : a = n.user_profile.name
    · simp [han, sumCounts_incr]
    · simp [han]

theorem likeInv_foldLiked (l : List Notification) :
    ∀ (ul : UserLikes) (flc : NatCounter), LikeInv ul flc →
      LikeInv (foldLiked (ul, flc) l).1 (foldLiked (ul, flc) l).2 := by
  induction l with
  | nil => intro ul flc h; simpa [foldLiked] using h
  | cons n l ih =>
      intro ul flc h
      have h' := likeInv_step ul flc h n
      simpa [foldLiked, List.foldl_cons] using
        ih (process_liked_notification n ul) (incr flc n.user_profile.name) h'

theorem likeInv_processPage (s : LoadState) (page : List Notification)
    (h : LikeInv s.user_likes s.follower_like_counts) :
    LikeInv (processPage s page).user_likes (processPage s page).follower_like_counts := by
  have hh := likeInv_foldLiked (page.filter likedPred) s.user_likes s.follower_like_counts h
  simpa [processPage] using hh

theorem likeInv_processPages :
    ∀ (pages : List (List Notification)) (s : LoadState),
      LikeInv s.user_likes s.follower_like_counts →
      LikeInv (processPages s pages).user_likes
        (processPages s pages).follower_like_counts
  | [], s, h => by simpa [processPages] using h
  | pg :: pages, s, h => by
      have h' := likeInv_processPage s pg h
      simpa [processPages, List.foldl_cons] using
        likeInv_processPages pages (processPage s pg) h'

/-- Claim C10: after ingesting any sequence of notification pages into
fresh aggregates, `follower_like_counts` and `user_likes` hold exactly the
same actor keys (in the same insertion order), and for every actor the
counter value equals the total of the stored per-`(resource_id,
created_at)` counts of that actor's like entry — both structures are
bumped by exactly one on every counted like event, and by the same event. -/
theorem like_counter_matches_like_aggregate
    (followers : List String) (pages : List (List Notification)) :
    (processPages (initState followers) pages).follower_like_counts.map (fun e => e.1)
      = (processPages (initState followers) pages).user_likes.map (fun e => e.1)
    ∧ ∀ a, lookupD (processPages (initState followers) pages).follower_like_counts a 0
        = sumCounts (lookupD (processPages (initState followers) pages).user_likes a []) := by
  have h0 : LikeInv (initState followers).user_likes
      (initState followers).follower_like_counts :=
    ⟨rfl, fun a => by simp [initState, lookupD, sumCounts]⟩
  exact likeInv_processPages pages (initState followers) h0

@[simp] theorem except_bind_ok {ε α β : Type} (a : α) (f : α → Except ε β) :
    (Except.ok a : Except ε α) >>= f = f a := rfl

@[simp] theorem except_bind_error {ε α β : Type} (e : ε) (f : α → Except ε β) :
    (Except.error e : Except ε α) >>= f = (Except.error e : Except ε β) := rfl

/-- Claim C7 (amended): invoked with an empty follower set, `analyze_likes`
performs the first percentage division with `total_followers = 0` and
raises `ZeroDivisionError`; no report is produced, so no NaN propagates
and no percentage is coerced, but there is no explicit "no followers"
condition — the run simply crashes at the division. -/
theorem empty_followers_raise_zero_division
    (user_likes : UserLikes) (flc : NatCounter) :
    analyze_likes user_likes [] flc = Except.error PyError.zeroDivision := by
  simp [analyze_likes, follower_names, pydiv]

/-- Claim C7 counterexample: on a concrete aggregate and an empty follower
set, the analysis evaluates the percentage division and fails with
`ZeroDivisionError`, rather than reporting any explicit "no followers"
condition before the divisions. -/
theorem empty_followers_zero_division_cx :
    analyze_likes dupUL [] exFLC = Except.error PyError.zeroDivision := by
  simp [analyze_likes, follower_names, pydiv]

/-- Claim C8 (amended): over an empty values collection the top-fraction
computation raises `ZeroDivisionError` (0 users / 0 users) and the
percentile computation raises; the exception propagates, so an empty
comment set aborts the whole statistics section — including the like
percentile report computed just before it. -/
theorem empty_stats_raise_and_propagate :
    (∀ (f t : ℚ), display_top_users_stats [] f t = Except.error PyError.zeroDivision)
    ∧ (∀ (likes : List ℚ) (t : ℚ),
        main_statistics likes [] t = Except.error PyError.indexError) := by
  constructor
  · intro f t
    simp [display_top_users_stats, List.insertionSort, pdHead, pydiv]
  · intro likes t
    by_cases h : likes.isEmpty
    · simp [main_statistics, np_percentile, h]
    · simp [main_statistics, np_percentile, h]

/-- Claim C8 counterexample: the top-fraction statistic over an empty list
fails with `ZeroDivisionError`, not any `InsufficientDataError`; and with a
non-empty likes list but an empty comment set, the statistics section of
`main` fails before emitting anything — the like percentile report is
blocked by the empty comment set. -/
theorem empty_stats_errors_cx :
    display_top_users_stats [] (5 / 100) 19 = Except.error PyError.zeroDivision
    ∧ main_statistics [1] [] 1 = Except.error PyError.indexError := by
  constructor
  · simp [display_top_users_stats, List.insertionSort, pdHead, pydiv]
  · simp [main_statistics, np_percentile]

/-- Claim C4: for a non-empty list of per-user totals, a fraction
`f ∈ [0, 1]` and a nonzero grand total, `display_top_users_stats` computes
exactly the spec-side statistic: sort the totals descending, select the
leading `int(f * n)` elements (truncation toward zero), and report the
slice sum as a percentage of `total` alongside the slice size as a
percentage of `n`; the selected slice has exactly `int(f * n)` elements
(so `f = 0.05`, `n = 19` selects 0 elements and reports 0%). -/
theorem top_fraction_matches_spec (values : List ℚ) (f total : ℚ)
    (hne : values ≠ []) (hf0 : 0 ≤ f) (hf1 : f ≤ 1) (ht : total ≠ 0) :
    display_top_users_stats values f total = Except.ok (top_fraction_share values f total)
    ∧ (top_fraction_share values f total).1
        = (pyInt (f * (values.length : ℚ))).toNat := by
  have hn0 : (values.length : ℚ) ≠ 0 :=
    Nat.cast_ne_zero.mpr (fun h => hne (List.length_eq_zero.mp h))
  have hq0 : 0 ≤ f * (values.length : ℚ) := mul_nonneg hf0 (Nat.cast_nonneg _)
  have hpy : pyInt (f * (values.length : ℚ)) = ⌊f * (values.length : ℚ)⌋ := if_pos hq0
  have hpos : 0 ≤ pyInt (f * (values.length : ℚ)) := by
    rw [hpy]
    exact Int.floor_nonneg.mpr hq0
  have hkn : (pyInt (f * (values.length : ℚ))).toNat ≤ values.length := by
    rw [hpy]
    have h1 : f * (values.length : ℚ) ≤ (values.length : ℚ) := by
      calc f * (values.length : ℚ) ≤ 1 * (values.length : ℚ) :=
            mul_le_mul_of_nonneg_right hf1 (Nat.cast_nonneg _)
        _ = (values.length : ℚ) := one_mul _
    have h2 : ⌊f * (values.length : ℚ)⌋ ≤ (values.length : Int) := by
      calc ⌊f * (values.length : ℚ)⌋ ≤ ⌊((values.length : Nat) : ℚ)⌋ :=
            Int.floor_le_floor h1
        _ = (values.length : Int) := Int.floor_natCast _
    exact Int.toNat_le.mpr h2
  constructor
  · simp [display_top_users_stats, top_fraction_share, pdHead, hpos, pydiv, hn0, ht]
  · simp only [top_fraction_share, List.length_take, List.length_insertionSort]
    omega

theorem top_fraction_matches_spec_witness :
    display_top_users_stats (List.replicate 19 (1 : ℚ)) (5 / 100) 19
      = Except.ok (0, 0, 0) := by
  have h := top_fraction_matches_spec (List.replicate 19 (1 : ℚ)) (5 / 100) 19
    (by simp) (by norm_num) (by norm_num) (by norm_num)
  rw [h.1]
  have hlen : ((List.replicate 19 (1 : ℚ)).length : ℚ) = 19 := by
    rw [List.length_replicate]
    norm_num
  have hk : (pyInt ((5 : ℚ) / 100 * ((List.replicate 19 (1 : ℚ)).length : ℚ))).toNat = 0 := by
    rw [hlen]
    have : ((5 : ℚ) / 100 * 19) = 19 / 20 := by norm_num
    rw [this, pyInt, if_pos (by norm_num : (0 : ℚ) ≤ 19 / 20)]
    norm_num
  simp only [top_fraction_share, hk, List.take_zero, List.length_nil, List.sum_nil,
    Nat.cast_zero, zero_div, zero_mul, mul_zero]

theorem load_data_go_congr :
    ∀ (ps qs : List Payload), ps.map pageOf = qs.map pageOf →
      ∀ (offset : Nat) (s : LoadState),
        load_data_go ps offset s = load_data_go qs offset s
  | [], [], _, _, _ => rfl
  | [], q :: qs, h, _, _ => by simp at h
  | p :: ps, [], h, _, _ => by simp at h
  | p :: ps, q :: qs, h, offset, s => by
      simp only [List.map_cons, List.cons.injEq] at h
      obtain ⟨h1, h2⟩ := h
      simp only [load_data_go, h1]
      rw [load_data_go_congr ps qs h2 (offset + LIMIT) (processPage s (pageOf q))]

/-- Claim C9 (amended): a response payload lacking the `notifications` key
is treated as an empty page (`data.get("notifications", [])`): the fetch
terminates normally at that page — with no error value, indistinguishable
from ordinary end-of-data — and returns the aggregates accumulated from
all prior pages. -/
theorem malformed_page_treated_as_empty (followers : List String)
    (full : List Payload) (rest : List Payload)
    (hfull : ∀ p ∈ full, (pageOf p).length = LIMIT) :
    load_data followers (full ++ (⟨none⟩ : Payload) :: rest) =
      some ((List.range (full.length + 1)).map (fun i => (i * LIMIT, LIMIT)),
        processPages (initState followers) (full.map pageOf ++ [[]])) := by
  have h := load_data_go_spec full hfull ⟨none⟩ (by simp [pageOf, LIMIT])
    rest 0 (initState followers)
  rw [load_data, h]
  simp [pageOf]

theorem malformed_page_treated_as_empty_witness :
    load_data [] [⟨some (List.replicate 500 n0)⟩, (⟨none⟩ : Payload)] =
      some ([(0, 500), (500, 500)],
        processPages (initState []) [List.replicate 500 n0, []]) := by
  have h := malformed_page_treated_as_empty [] [⟨some (List.replicate 500 n0)⟩] []
    (List.forall_mem_cons.2
      ⟨by show (List.replicate 500 n0).length = LIMIT; rw [List.length_replicate]; rfl,
        by simp⟩)
  refine Eq.trans h (congrArg some (congrArg₂ Prod.mk (by decide) rfl))

/-- Claim C9 counterexample: a run that hits a payload with no
`notifications` key terminates successfully (`isSome`), with exactly the
same requests and aggregates as a run whose final payload carries an
explicit empty `notifications` array — no `MalformedResponseError` (or any
error value) exists to distinguish the two. -/
theorem malformed_page_indistinguishable_cx :
    load_data [] [⟨some (List.replicate 500 n0)⟩, (⟨none⟩ : Payload)]
      = load_data [] [⟨some (List.replicate 500 n0)⟩, ⟨some []⟩]
    ∧ (load_data [] [⟨some (List.replicate 500 n0)⟩, (⟨none⟩ : Payload)]).isSome = true := by
  constructor
  · exact load_data_go_congr _ _ rfl 0 (initState [])
  · have h := load_data_go_spec [⟨some (List.replicate 500 n0)⟩]
      (List.forall_mem_cons.2
        ⟨by show (List.replicate 500 n0).length = LIMIT; rw [List.length_replicate]; rfl,
          by simp⟩)
      ⟨none⟩ (by decide) [] 0 (initState [])
    have h2 : load_data [] [⟨some (List.replicate 500 n0)⟩, (⟨none⟩ : Payload)] =
        some ((List.range 2).map (fun i => (0 + i * LIMIT, LIMIT)),
          processPages (initState [])
            ([⟨some (List.replicate 500 n0)⟩].map pageOf ++ [pageOf ⟨none⟩])) := h
    rw [h2]
    rfl

theorem block_filter_length (a : String) (c : LikeCounter) (p : String → Bool) :
    ((c.map (fun pr => (a, postURL ++ pr.1.1, pr.1.2, pr.2))).filter
      (fun r => p r.1)).length = if p a then c.length else 0 := by
  induction c with
  | nil => simp
  | cons pr c ih =>
      simp only [List.map_cons, List.filter_cons]
      by_cases hp : p a
      · simp [hp, ih]
      · simp [hp, ih]

theorem rows_filter_by_actor (ul : UserLikes) (p : String → Bool) :
    ((generate_likes_dataframe ul).filter (fun r => p r.1)).length
      = ((ul.filter (fun e => p e.1)).map (fun e => e.2.length)).sum := by
  induction ul with
  | nil => simp [generate_likes_dataframe, liked_data]
  | cons e rest ih =>
      obtain ⟨a, c⟩ := e
      have hgen : generate_likes_dataframe ((a, c) :: rest)
          = (c.map (fun pr => (a, postURL ++ pr.1.1, pr.1.2, pr.2)))
            ++ generate_likes_dataframe rest := by
        simp only [generate_likes_dataframe, liked_data, List.flatMap_cons,
          List.map_append, List.map_map]
        rfl
      rw [hgen, List.filter_append, List.length_append, block_filter_length,
        List.filter_cons]
      by_cases hp : p a
      · simp [hp, ih]
      · simp [hp, ih]

theorem filter_length_add_not {α : Type} (l : List α) (p : α → Bool) :
    (l.filter p).length + (l.filter (fun x => !(p x))).length = l.length := by
  induction l with
  | nil => simp
  | cons x l ih =>
      simp only [List.filter_cons]
      by_cases hp : p x <;> simp [hp] <;> omega

/-- Claim C5 (amended): the split reported by `analyze_likes` counts
dataframe rows, i.e. distinct `(actor, resource_id, created_at)` like
entries — each entry counted once regardless of its stored repeat count —
partitioned by exact case-sensitive membership of the actor in the
follower set; each actor contributes the number of distinct pairs in its
like set, and the two parts add up to the dataframe's row count. -/
theorem likes_split_counts_distinct_rows (ul : UserLikes) (followers : List String) :
    likes_by_followers ul followers
        = ((ul.filter (fun e => (follower_names followers).contains e.1)).map
            (fun e => e.2.length)).sum
    ∧ likes_by_non_followers ul followers
        = ((ul.filter (fun e => !((follower_names followers).contains e.1))).map
            (fun e => e.2.length)).sum
    ∧ likes_by_followers ul followers + likes_by_non_followers ul followers
        = (generate_likes_dataframe ul).length := by
  refine ⟨?_, ?_, ?_⟩
  · rw [likes_by_followers]
    exact rows_filter_by_actor ul _
  · rw [likes_by_non_followers]
    exact rows_filter_by_actor ul (fun x => !((follower_names followers).contains x))
  · rw [likes_by_followers, likes_by_non_followers]
    exact filter_length_add_not (generate_likes_dataframe ul) _

/-- Claim C5 counterexample: with a single duplicated like by follower `A`
(one `(resource_id, created_at)` pair stored with count 2), the follower
side of the split reports 1 — the number of distinct tuples — while the
total like-event count contributed by followers is 2; the split does not
partition the event count the claim describes. -/
theorem likes_split_counts_rows_not_events_cx :
    likes_by_followers dupUL ["A"] = 1
    ∧ like_events_by_followers dupUL ["A"] = 2
    ∧ likes_by_followers dupUL ["A"] ≠ like_events_by_followers dupUL ["A"] := by
  refine ⟨?_, ?_, ?_⟩ <;> decide

theorem groupByLikes_mem {rows : List (String × Nat)} {denom : ℚ}
    {b : Nat × Nat × ℚ} (hb : b ∈ groupByLikes rows denom) :
    b.2.1 = (rows.filter (fun e => e.2 == b.1)).length
    ∧ b.2.2 = ((b.2.1 : Nat) : ℚ) / denom * 100 := by
  simp only [groupByLikes, List.mem_map] at hb
  obtain ⟨v, hv, rfl⟩ := hb
  exact ⟨rfl, rfl⟩

theorem value_counts_filter_count (l : List String) (v : Nat) :
    ((value_counts l).filter (fun e => e.2 == v)).length
      = (l.dedup.filter (fun a => (l.filter (fun b => b == a)).length == v)).length := by
  simp only [value_counts, List.filter_map, List.length_map]
  rfl

theorem non_follower_count_eq (ul : UserLikes) (followers : List String) (a : String)
    (ha : (follower_names followers).contains a = false) :
    (((non_follower_rows ul followers).map (fun r => r.1)).filter
      (fun b => b == a)).length
      = ((generate_likes_dataframe ul).filter (fun r => r.1 == a)).length := by
  rw [non_follower_rows, List.filter_map, List.length_map, List.filter_filter]
  refine congrArg List.length (List.filter_congr fun r hr => ?_)
  simp only [Function.comp_apply]
  by_cases hra : r.1 = a
  · rw [hra, ha]
    simp
  · have hb : (r.1 == a) = false := beq_eq_false_iff_ne.mpr hra
    rw [hb]
    simp

/-- Claim C6 (amended): in `distribution_by_likes`, every follower-side
bucket `(v, c, q)` satisfies `q = c / total_followers * 100`, with `c` the
number of retained follower counter entries having count exactly `v`; but
every non-follower bucket satisfies
`q = c / (len(users_with_likes) - total_followers) * 100` — the source
divides by the count of all actors with likes minus the count of all
followers, not by the number of non-follower actors — with `c` the number
of distinct non-follower actors having exactly `v` dataframe rows. -/
theorem bucket_percentage_formulas (ul : UserLikes) (followers : List String)
    (flc : NatCounter) (v c : Nat) (q : ℚ) :
    ((v, c, q) ∈ non_follower_likes_summary ul followers →
      q = (c : ℚ) / (((users_with_likes ul).length : ℚ)
          - ((follower_names followers).length : ℚ)) * 100
      ∧ c = (((non_follower_rows ul followers).map (fun r => r.1)).dedup.filter
          (fun a => ((generate_likes_dataframe ul).filter
            (fun r => r.1 == a)).length == v)).length)
    ∧ ((v, c, q) ∈ follower_likes_summary followers flc →
      q = (c : ℚ) / ((follower_names followers).length : ℚ) * 100
      ∧ c = ((follower_like_counts_df followers flc).filter
          (fun e => e.2 == v)).length) := by
  constructor
  · intro hb
    have hb' : (v, c, q) ∈ groupByLikes (non_follower_like_counts ul followers)
        (((users_with_likes ul).length : ℚ)
          - ((follower_names followers).length : ℚ)) := hb
    have h := groupByLikes_mem hb'
    refine ⟨h.2, ?_⟩
    have hc : c = ((non_follower_like_counts ul followers).filter
        (fun e => e.2 == v)).length := h.1
    rw [hc, non_follower_like_counts, value_counts_filter_count]
    refine congrArg List.length (List.filter_congr fun a ha => ?_)
    have hmem : a ∈ (non_follower_rows ul followers).map (fun r => r.1) :=
      List.mem_dedup.1 ha
    obtain ⟨r, hr, hra⟩ := List.mem_map.1 hmem
    have hnf : (follower_names followers).contains r.1 = false := by
      have h2 := (List.mem_filter.1 hr).2
      simpa [non_follower_rows] using h2
    have hca : (follower_names followers).contains a = false := hra ▸ hnf
    rw [non_follower_count_eq ul followers a hca]
  · intro hb
    have hb' : (v, c, q) ∈ groupByLikes (follower_like_counts_df followers flc)
        ((follower_names followers).length : ℚ) := hb
    have h := groupByLikes_mem hb'
    exact ⟨h.2, h.1⟩

/-- Claim C6 counterexample: actors `A`, `E` are non-followers with likes
and `B`, `C` are followers of whom only `B` has likes.  The single
non-follower bucket (2 actors with exactly 1 like each) is annotated
`200%`, while the claim's formula — bucket count over the 2 non-follower
actors with likes — gives `100%`: the source's denominator is
`len(users_with_likes) - total_followers = 3 - 2 = 1`. -/
theorem non_follower_pct_denominator_cx :
    non_follower_likes_summary exUL exFollowers = [(1, 2, 200)]
    ∧ (((non_follower_rows exUL exFollowers).map (fun r => r.1)).dedup).length = 2
    ∧ ((2 : ℚ) / 2 * 100 = 100)
    ∧ (200 : ℚ) ≠ 100 := by
  refine ⟨?_, rfl, by norm_num, by norm_num⟩
  have e1 : non_follower_likes_summary exUL exFollowers
      = [(1, 2, ((2 : Nat) : ℚ) / (((users_with_likes exUL).length : ℚ)
          - ((follower_names exFollowers).length : ℚ)) * 100)] := rfl
  have e2 : (users_with_likes exUL).length = 3 := rfl
  have e3 : (follower_names exFollowers).length = 2 := rfl
  rw [e1, e2, e3]
  norm_num

theorem bucket_percentage_formulas_witness :
    (200 : ℚ) = ((2 : Nat) : ℚ) / (((users_with_likes exUL).length : ℚ)
        - ((follower_names exFollowers).length : ℚ)) * 100
    ∧ (2 : Nat) = (((non_follower_rows exUL exFollowers).map (fun r => r.1)).dedup.filter
        (fun a => ((generate_likes_dataframe exUL).filter
          (fun r => r.1 == a)).length == 1)).length := by
  have hmem : ((1 : Nat), (2 : Nat), (200 : ℚ))
      ∈ non_follower_likes_summary exUL exFollowers := by
    have e1 : non_follower_likes_summary exUL exFollowers
        = [(1, 2, ((2 : Nat) : ℚ) / (((users_with_likes exUL).length : ℚ)
            - ((follower_names exFollowers).length : ℚ)) * 100)] := rfl
    have e2 : (users_with_likes exUL).length = 3 := rfl
    have e3 : (follower_names exFollowers).length = 2 := rfl
    rw [e1, e2, e3]
    have e4 : ((2 : Nat) : ℚ) / (((3 : Nat) : ℚ) - ((2 : Nat) : ℚ)) * 100 = 200 := by
      norm_num
    rw [e4]
    exact List.mem_singleton.2 rfl
  exact (bucket_percentage_formulas exUL exFollowers exFLC 1 2 200).1 hmem
